import Mathlib

/-!
Verification of the threshold-evaluation and metric-extraction logic of the
JBossAS/Wildfly Nagios plugin (`check_wildfly.py`), shallowly embedded in Lean.

Python scalars that flow through `check_levels` are modelled by `PyVal`
(floats and ints collapse to `ℚ`, exact arithmetic).  Python exceptions that
the modelled code paths can raise are modelled by `PyErr`; exception message
texts are abbreviated to the stable part of CPython's wording.  A call to
`check_levels` either terminates the process via `sys.exit` (`Outcome.exited`),
returns an error code to `main` which then exits with it (`Outcome.returned`),
or raises (`Outcome.raised`), in which case the calling check function's
blanket `except Exception` handler converts the exception via
`exit_with_general_critical`.
-/

/-- Model of the Python scalar values handled by the plugin: floats/ints
(as exact rationals), strings, `None`, and lists. -/
inductive PyVal where
  | num : ℚ → PyVal
  | str : String → PyVal
  | none : PyVal
  | list : List PyVal → PyVal

/-- Model of the Python exceptions raised on the modelled code paths.
The carried string is the exception's `str()` text (abbreviated). -/
inductive PyErr where
  | typeError : String → PyErr
  | zeroDiv : PyErr
  | valueError : String → PyErr
deriving DecidableEq, Repr

/-- `str(e)` for a modelled exception. -/
def PyErr.text : PyErr → String
  | .typeError m => m
  | .zeroDiv => "float division by zero"
  | .valueError m => m

/-- Source `numeric_type`: true for float, int, or `None`. -/
def numeric_type : PyVal → Bool
  | .num _ => true
  | .none => true
  | _ => false

mutual

/-- Python `==` between the modelled values (structural; cross-type `False`). -/
def pyEq : PyVal → PyVal → Bool
  | .num a, .num b => a == b
  | .str a, .str b => a == b
  | .none, .none => true
  | .list a, .list b => pyEqList a b
  | _, _ => false

/-- Python `==` between lists, elementwise. -/
def pyEqList : List PyVal → List PyVal → Bool
  | [], [] => true
  | a :: as, b :: bs => pyEq a b && pyEqList as bs
  | _, _ => false

end

/-- Python substring test `needle in hay` on strings
(`""` is a substring of every string). -/
def strIn (needle hay : String) : Bool :=
  hay.data.tails.any (fun t => needle.data.isPrefixOf t)

/-- Python `x in y` as used by `check_levels`: substring containment when `y`
is a string (requiring `x` to be a string too, else `TypeError`), membership
by `==` when `y` is a list, and `TypeError` otherwise. -/
def pyIn (x y : PyVal) : Except PyErr Bool :=
  match y with
  | .str s =>
    match x with
    | .str n => .ok (strIn n s)
    | _ => .error (.typeError "in <string> requires string as left operand")
  | .list l => .ok (l.any (fun e => pyEq x e))
  | _ => .error (.typeError "argument of type is not iterable")

/-- Python `a >= b` on the modelled values (Python 3 semantics: comparing a
number or string with `None`, or a number with a string, raises `TypeError`). -/
def pyGE (a b : PyVal) : Except PyErr Bool :=
  match a, b with
  | .num x, .num y => .ok (decide (y ≤ x))
  | .str x, .str y => .ok (x == y || decide (y < x))
  | _, _ => .error (.typeError "not supported between instances")

/-- Python truthiness of the modelled values. -/
def truthy : PyVal → Bool
  | .num q => q != 0
  | .str s => s ≠ ""
  | .none => false
  | .list l => !l.isEmpty

/-- Python `a or b` on the modelled values. -/
def pyOr (a b : PyVal) : PyVal := if truthy a then a else b

/-- Rendering of a float value by `str()`/`%s`.  CPython prints the
shortest-roundtrip decimal of the binary float; this embedding keeps exact
rationals, so non-integral values are rendered as `num/den`.  No theorem in
this file depends on the text produced for a non-integral value. -/
def pyFloatStr (q : ℚ) : String :=
  if q.den = 1 then toString q.num ++ ".0"
  else toString q.num ++ "/" ++ toString q.den

/-- Python `repr()` of a modelled value (used by `%s` on dicts/lists). -/
def pyReprVal : PyVal → String
  | .num q => if q.den = 1 then toString q.num else pyFloatStr q
  | .str s => "\x27" ++ s ++ "\x27"
  | .none => "None"
  | .list l => "[" ++ String.intercalate ", " (l.attach.map (fun e => pyReprVal e.1)) ++ "]"
decreasing_by
  have h := List.sizeOf_lt_of_mem e.2
  simp only [PyVal.list.sizeOf_spec]
  omega

/-- Python `str()` of a modelled value, as used by `%s` formatting and
`str(param)` in `performance_data`. -/
def pyStrOf : PyVal → String
  | .num q => if q.den = 1 then toString q.num else pyFloatStr q
  | .str s => s
  | .none => "None"
  | .list l => pyReprVal (.list l)

/-- Python `"%d" % v`: renders a number truncated toward zero; raises
`TypeError` for a non-number (in particular for a string). -/
def formatD : PyVal → Except PyErr String
  | .num q => .ok (toString (q.num.tdiv (q.den : Int)))
  | _ => .error (.typeError "%d format: a number is required, not str")

/-- Observable fate of one plugin invocation step:
`exited code line` models `print(line); sys.exit(code)`;
`returned code line` models printing `line` and returning `code` to `main`
(which then exits with it); `raised e` models an escaping exception. -/
inductive Outcome where
  | exited : Int → String → Outcome
  | returned : Int → String → Outcome
  | raised : PyErr → Outcome
deriving DecidableEq, Repr

/-- Source `exit_with_general_critical` applied to a caught exception:
`ValueError` prints and calls `sys.exit(2)`; every other exception prints the
same line and returns 2 (the dead `SystemExit` branch is unreachable in
Python 3, where `except Exception` does not catch `SystemExit`). -/
def exit_with_general_critical (e : PyErr) : Outcome :=
  match e with
  | .valueError m => .exited 2 ("CRITICAL - General JbossAS Error: " ++ m)
  | _ => .returned 2 ("CRITICAL - General JbossAS Error: " ++ e.text)

/-- The blanket `except Exception as e: return exit_with_general_critical(e)`
wrapper present in every check function. -/
def catchGeneralCritical : Outcome → Outcome
  | .raised e => exit_with_general_critical e
  | o => o

/-- Source `check_levels(param, warning, critical, message, ok=[])`.
Numeric branch when both thresholds pass `numeric_type`; otherwise the
set/substring branch via Python `in`.  The final branch prints
`"CRITICAL - Unexpected value : %d" % param + "; " + message` and returns 2;
the `%d` formatting itself raises `TypeError` when `param` is a string. -/
def check_levels (param warning critical : PyVal) (message : String) (ok : PyVal) : Outcome :=
  if numeric_type critical && numeric_type warning then
    match pyGE param critical with
    | .error e => .raised e
    | .ok true => .exited 2 ("CRITICAL - " ++ message)
    | .ok false =>
      match pyGE param warning with
      | .error e => .raised e
      | .ok true => .exited 1 ("WARNING - " ++ message)
      | .ok false => .exited 0 ("OK - " ++ message)
  else
    match pyIn param critical with
    | .error e => .raised e
    | .ok true => .exited 2 ("CRITICAL - " ++ message)
    | .ok false =>
      match pyIn param warning with
      | .error e => .raised e
      | .ok true => .exited 1 ("WARNING - " ++ message)
      | .ok false =>
        match pyIn param ok with
        | .error e => .raised e
        | .ok true => .exited 0 ("OK - " ++ message)
        | .ok false =>
          match formatD param with
          | .error e => .raised e
          | .ok s => .returned 2 ("CRITICAL - Unexpected value : " ++ s ++ "; " ++ message)

/-- One entry of the `params` list passed to `performance_data`:
`(param, param_name, warning, critical)`.  All call sites in the source pass
4-tuples, so the source's padding with four `None`s followed by `p[0:4]` is
the identity and is not reproduced. -/
def PerfParam := PyVal × String × PyVal × PyVal

/-- Body of the `for p in params` loop of `performance_data`:
`"%s=%s" % (param_name, str(param))`, then `";%s;%s" % (warning, critical)`
when either threshold is truthy (a falsy one replaced by `0`), then `" "`. -/
def perf_entry (p : PerfParam) : String :=
  let (param, param_name, warning, critical) := p
  param_name ++ "=" ++ pyStrOf param ++
    (if truthy warning || truthy critical then
      ";" ++ pyStrOf (pyOr warning (.num 0)) ++ ";" ++ pyStrOf (pyOr critical (.num 0))
    else "") ++ " "

/-- Source `performance_data(perf_data, params)`: empty string when disabled,
otherwise `" |"` followed by one `perf_entry` per parameter tuple. -/
def performance_data (perf_data : Bool) (params : List PerfParam) : String :=
  if perf_data then params.foldl (fun data p => data ++ perf_entry p) " |" else ""

/-- Python `a or b` on strings (`""` is falsy). -/
def pyOrStr (a b : String) : String := if a = "" then b else a

/-- Source `check_server_status(warning, critical, perf_data)` after a
successful fetch whose `result` field is the server-state string `res`
(the fetch itself is external I/O; any fetch failure exits beforehand inside
`post_digest_auth_json`).  Defaults: warning `"reload-required"`, critical
`""`, ok `"running"`.  The blanket handler converts an escaping exception. -/
def check_server_status (warning critical : String) (perf_data : Bool) (res : String) : Outcome :=
  let warning := pyOrStr warning "reload-required"
  let critical := pyOrStr critical ""
  let ok := "running"
  let message := "Server Status \x27" ++ res ++ "\x27" ++
    performance_data perf_data [(.str res, "server_status", .str warning, .str critical)]
  catchGeneralCritical (check_levels (.str res) (.str warning) (.str critical) message (.str ok))

/-- Source `get_memory_usage` after a successful fetch: the raw byte reading
divided by `1024 * 1024` (Python 3 true division, exact here). -/
def get_memory_usage (reading : ℚ) : ℚ := reading / (1024 * 1024)

/-- Python 3 `round` to the nearest integer, halves to the even integer. -/
def roundHalfEven (q : ℚ) : ℤ :=
  let f : ℤ := ⌊q⌋
  let r : ℚ := q - f
  if r < 1 / 2 then f
  else if 1 / 2 < r then f + 1
  else if f % 2 = 0 then f else f + 1

/-- Python `round(q, 2)`. -/
def round2 (q : ℚ) : ℚ := (roundHalfEven (q * 100) : ℚ) / 100

/-- Python division, raising `ZeroDivisionError` on a zero divisor. -/
def pyDivQ (a b : ℚ) : Except PyErr ℚ :=
  if b = 0 then .error .zeroDiv else .ok (a / b)

/-- The percentage computed by `check_heap_usage` (and its clones) from the
raw used/max byte readings:
`round((float(used_heap * 100) / max_heap), 2)` with
`used_heap = usedB / (1024*1024)` and `max_heap = maxB / (1024*1024)`. -/
def heap_percent (usedB maxB : ℚ) : Except PyErr ℚ :=
  (pyDivQ (get_memory_usage usedB * 100) (get_memory_usage maxB)).map round2

/-- Python `"%.2f" % q` (rounds half to even, as CPython does). -/
def format2 (q : ℚ) : String :=
  let n := roundHalfEven (q * 100)
  let a := n.natAbs
  (if n < 0 then "-" else "") ++ toString (a / 100) ++ "." ++
    (if a % 100 < 10 then "0" else "") ++ toString (a % 100)

/-- Source `check_heap_usage(warning, critical, perf_data)` given the raw
`used` and `max` byte readings fetched by `get_memory_usage`.  `main` passes
`float(options.warning or 0)`, and `warning or 80` replaces a zero with the
default 80 (likewise 90 for critical).  A `ZeroDivisionError` from the
percentage computation is caught by the blanket handler. -/
def check_heap_usage (usedB maxB warning critical : ℚ) (perf_data : Bool) : Outcome :=
  let warning := if warning = 0 then 80 else warning
  let critical := if critical = 0 then 90 else critical
  let used_heap := get_memory_usage usedB
  let max_heap := get_memory_usage maxB
  match heap_percent usedB maxB with
  | .error e => exit_with_general_critical e
  | .ok percent =>
    let message := "Heap Memory Utilization " ++ pyFloatStr used_heap ++ "MB of " ++
      pyFloatStr max_heap ++ "MB" ++
      performance_data perf_data [(.str (format2 percent ++ "%"), "heap_usage", .num warning, .num critical)]
    catchGeneralCritical (check_levels (.num percent) (.num warning) (.num critical) message (.list []))

/-- Source `check_non_heap_usage`: identical to `check_heap_usage` except for
the fetched readings (non-heap) and the message/label texts. -/
def check_non_heap_usage (usedB maxB warning critical : ℚ) (perf_data : Bool) : Outcome :=
  let warning := if warning = 0 then 80 else warning
  let critical := if critical = 0 then 90 else critical
  let used_heap := get_memory_usage usedB
  let max_heap := get_memory_usage maxB
  match heap_percent usedB maxB with
  | .error e => exit_with_general_critical e
  | .ok percent =>
    let message := "Non Heap Memory Utilization " ++ pyFloatStr used_heap ++ "MB of " ++
      pyFloatStr max_heap ++ "MB" ++
      performance_data perf_data [(.str (format2 percent ++ "%"), "non_heap_usage", .num warning, .num critical)]
    catchGeneralCritical (check_levels (.num percent) (.num warning) (.num critical) message (.list []))

/-- A parsed top-level JSON object, as returned by `res.json()`. -/
def PyDict := List (String × PyVal)

/-- Python `data[key]` on a dict, as an `Option`. -/
def dictLookup : PyDict → String → Option PyVal
  | [], _ => Option.none
  | (k, v) :: rest, key => if k = key then some v else dictLookup rest key

/-- Python `str()` of a parsed JSON object, used by
`"CRITICAL - Unexpected value : %s" % data`. -/
def dictRepr (d : PyDict) : String :=
  "\x7b" ++
    String.intercalate ", " (d.map (fun kv => "\x27" ++ kv.1 ++ "\x27: " ++ pyReprVal kv.2)) ++
  "\x7d"

/-- Result of the response-handling stage of the fetch helpers:
`fatal code line` models `print(line); sys.exit(code)`. -/
inductive FetchResult where
  | fatal : Int → String → FetchResult
  | ok : PyDict → FetchResult

/-- Source `get_digest_auth_json` after the HTTP GET has produced the parsed
JSON object `data` (the transport itself is external I/O; a transport error
takes the `except` branch and exits 2 before this logic runs): if the
top-level `outcome` field exists and equals `"failed"`, print
`"CRITICAL - Unexpected value : %s" % data` and `sys.exit(2)`; a missing
`outcome` key is ignored (`except KeyError: pass`). -/
def get_digest_auth_json (data : PyDict) : FetchResult :=
  match dictLookup data "outcome" with
  | some outcome =>
    if pyEq outcome (.str "failed") then
      .fatal 2 ("CRITICAL - Unexpected value : " ++ dictRepr data)
    else .ok data
  | Option.none => .ok data

/-- Source `post_digest_auth_json` after the HTTP POST has produced the parsed
JSON object: the response handling is duplicated verbatim from
`get_digest_auth_json` in the source. -/
def post_digest_auth_json (data : PyDict) : FetchResult :=
  match dictLookup data "outcome" with
  | some outcome =>
    if pyEq outcome (.str "failed") then
      .fatal 2 ("CRITICAL - Unexpected value : " ++ dictRepr data)
    else .ok data
  | Option.none => .ok data

/-- Fate of a check function's pre-network phase: either it fails via
`exit_with_general_critical` before issuing any request (`earlyError`), or it
reaches `get_digest_auth_json` with the given URL fragment (`fetch`;
standalone mode, the domain-mode prefix does not affect which of the two
happens). -/
inductive PreFetch where
  | earlyError : String → PreFetch
  | fetch : String → PreFetch
deriving DecidableEq, Repr

/-- Python `x in l` for an optional string against a string list
(`None in l` is `False` for a list of strings). -/
def optMem (x : Option String) (l : List String) : Bool :=
  match x with
  | some s => l.contains s
  | Option.none => false

/-- `"%s" % x` for an optional string (`None` renders as `"None"`). -/
def optStr : Option String → String
  | some s => s
  | Option.none => "None"

/-- The four valid thread statistic types of `check_threading`. -/
def thread_stat_types : List String :=
  ["thread-count", "peak-thread-count", "total-started-thread-count", "daemon-thread-count"]

/-- The twelve valid datasource statistic types (`ds_stat_types` in `main`). -/
def ds_stat_types : List String :=
  ["ActiveCount", "AvailableCount", "AverageBlockingTime", "AverageCreationTime",
   "CreatedCount", "DestroyedCount", "MaxCreationTime", "MaxUsedCount",
   "MaxWaitTime", "TimedOut", "TotalBlockingTime", "TotalCreationTime"]

/-- Pre-network phase of `check_threading`: an invalid statistic type fails
via `exit_with_general_critical` before the fetch. -/
def check_threading_validate (thread_stat_type : Option String) : PreFetch :=
  if optMem thread_stat_type thread_stat_types = false then
    .earlyError ("The thread statistics value type of \x27" ++ optStr thread_stat_type ++
      "\x27 is not valid")
  else
    .fetch "/core-service/platform-mbean/type/threading"

/-- Pre-network phase of `get_datasource_stats`: a `None` datasource name or
an invalid statistic type fails before the fetch. -/
def get_datasource_stats_validate (is_xa : Bool) (ds_name ds_stat_type : Option String) : PreFetch :=
  match ds_name with
  | Option.none => .earlyError "The ds_name name \x27None\x27 is not valid"
  | some name =>
    if optMem ds_stat_type ds_stat_types = false then
      .earlyError ("The datasource statistics type of \x27" ++ optStr ds_stat_type ++
        "\x27 is not valid")
    else
      .fetch ((if is_xa then "/subsystem/datasources/xa-data-source/"
               else "/subsystem/datasources/data-source/") ++ name ++ "/statistics/pool/")

/-- Pre-network phase of `check_queue_depth`: only a `None` queue name is
rejected (`if queue_name is None`); any string, including `""`, proceeds to
the fetch. -/
def check_queue_depth_validate (queue_name : Option String) : PreFetch :=
  match queue_name with
  | Option.none => .earlyError "The queue name \x27None\x27 is not valid"
  | some name => .fetch ("/subsystem/messaging/hornetq-server/default/jms-queue/" ++ name)

/-- The line printed by an outcome that prints one (`raised` prints nothing
itself; its caller's handler does). -/
def outcomeLine : Outcome → Option String
  | .exited _ line => some line
  | .returned _ line => some line
  | .raised _ => Option.none

/-- The claim of the spec that every reported line is
`"{STATUS} - {message}"`, as a predicate on an outcome. -/
def lineShape (o : Outcome) : Prop :=
  match outcomeLine o with
  | some line => ∃ st rest, st ∈ (["OK", "WARNING", "CRITICAL"] : List String) ∧
      line = st ++ " - " ++ rest
  | Option.none => True

/-- If Python `in` succeeded on `c`, then `c` is a string or a list, hence
not of `numeric_type`, so `check_levels` takes its set/substring branch. -/
theorem pyIn_ok_numeric_type_false {p c : PyVal} {b : Bool}
    (h : pyIn p c = .ok b) : numeric_type c = false := by
  cases c with
  | num q => simp [pyIn] at h
  | str s => rfl
  | none => simp [pyIn] at h
  | list l => rfl

/-- C1 (counterexample): with a null warning threshold (accepted by
`numeric_type`) and numeric critical threshold, a value below critical is not
classified OK or WARNING as the claim states: the Python 3 comparison
`param >= None` raises `TypeError` (which the calling check function's
blanket handler then reports as a general CRITICAL). -/
theorem check_levels_null_warning_raises :
    check_levels (.num 5) PyVal.none (.num 10) "m" (.list []) =
      .raised (.typeError "not supported between instances") ∧
    check_levels (.num 5) PyVal.none (.num 10) "m" (.list []) ≠ .exited 0 ("OK - m") ∧
    check_levels (.num 5) PyVal.none (.num 10) "m" (.list []) ≠ .exited 1 ("WARNING - m") := by
  refine ⟨rfl, by decide, by decide⟩

/-- C1 (amended): for numeric, non-null warning and critical thresholds,
`check_levels` classifies CRITICAL and exits 2 when `value >= critical`,
else WARNING and exits 1 when `value >= warning`, else OK and exits 0. -/
theorem check_levels_numeric_trichotomy (p w c : ℚ) (msg : String) (ok : PyVal) :
    (c ≤ p → check_levels (.num p) (.num w) (.num c) msg ok =
      .exited 2 ("CRITICAL - " ++ msg)) ∧
    (p < c → w ≤ p → check_levels (.num p) (.num w) (.num c) msg ok =
      .exited 1 ("WARNING - " ++ msg)) ∧
    (p < c → p < w → check_levels (.num p) (.num w) (.num c) msg ok =
      .exited 0 ("OK - " ++ msg)) := by
  refine ⟨fun h => ?_, fun h1 h2 => ?_, fun h1 h2 => ?_⟩
  · simp [check_levels, numeric_type, pyGE, h]
  · simp [check_levels, numeric_type, pyGE, not_le.mpr h1, h2]
  · simp [check_levels, numeric_type, pyGE, not_le.mpr h1, not_le.mpr h2]

/-- C1 (witness): at value 95, warning 80, critical 90 the amended theorem
yields CRITICAL with exit code 2. -/
theorem check_levels_numeric_trichotomy_witness :
    check_levels (.num 95) (.num 80) (.num 90) "m" (.list []) =
      .exited 2 ("CRITICAL - m") :=
  (check_levels_numeric_trichotomy 95 80 90 "m" (.list [])).1 (by norm_num)

/-- C2 (counterexample): in the set-based branch, a value that is a member of
none of the critical, warning, and ok sets (here with the default empty ok
list) is not classified UNKNOWN and is not treated as OK: `check_levels`
prints `CRITICAL - Unexpected value : ...` and returns 2. -/
theorem check_levels_unmatched_not_unknown :
    check_levels (.num 5) (.list [.num 1]) (.list [.num 2]) "m" (.list []) =
      .returned 2 ("CRITICAL - Unexpected value : 5; m") ∧
    check_levels (.num 5) (.list [.num 1]) (.list [.num 2]) "m" (.list []) ≠
      .exited 0 ("OK - m") ∧
    check_levels (.num 5) (.list [.num 1]) (.list [.num 2]) "m" (.list []) ≠
      .exited 3 ("UNKNOWN - m") := by
  refine ⟨rfl, by decide, by decide⟩

/-- C2 (amended): in the set-based branch, a value that is a member of none of
the critical, warning, and ok sets falls to the unexpected-value branch:
`"CRITICAL - Unexpected value : %d" % value` is printed and 2 is returned
when the value is numeric, while the `%d` formatting raises `TypeError` when
it is a string (reported as a general CRITICAL by the caller).  There is no
UNKNOWN classification; moreover the default ok set is the empty list, so
when no ok set is given a non-critical/non-warning value is never OK. -/
theorem check_levels_unmatched_unexpected_branch (p w c o : PyVal) (msg : String)
    (h1 : pyIn p c = .ok false) (h2 : pyIn p w = .ok false) (h3 : pyIn p o = .ok false) :
    check_levels p w c msg o =
      (match formatD p with
       | .error e => .raised e
       | .ok s => .returned 2 ("CRITICAL - Unexpected value : " ++ s ++ "; " ++ msg)) ∧
    pyIn p (.list []) = .ok false := by
  have hc := pyIn_ok_numeric_type_false h1
  refine ⟨?_, by simp [pyIn]⟩
  simp [check_levels, hc, h1, h2, h3]

/-- C2 (witness): the amended theorem at value 5, warning set `[1]`, critical
set `[2]`, empty ok set. -/
theorem check_levels_unmatched_unexpected_branch_witness :
    check_levels (.num 5) (.list [.num 1]) (.list [.num 2]) "msg" (.list []) =
      .returned 2 ("CRITICAL - Unexpected value : 5; msg") :=
  (check_levels_unmatched_unexpected_branch (.num 5) (.list [.num 1]) (.list [.num 2])
    (.list []) "msg" rfl rfl rfl).1

/-- C3: in the set-based branch, membership in the critical set yields
CRITICAL with exit code 2, regardless of the warning and ok sets (the
critical test is performed first). -/
theorem check_levels_critical_set_precedence (p w o c : PyVal) (msg : String)
    (h : pyIn p c = .ok true) :
    check_levels p w c msg o = .exited 2 ("CRITICAL - " ++ msg) := by
  have hc := pyIn_ok_numeric_type_false h
  simp [check_levels, hc, h]

/-- C3 (witness): a value that is a member of the critical, warning, and ok
sets at once is classified CRITICAL. -/
theorem check_levels_critical_set_precedence_witness :
    check_levels (.num 3) (.list [.num 3]) (.list [.num 3]) "m" (.list [.num 3]) =
      .exited 2 ("CRITICAL - m") :=
  check_levels_critical_set_precedence (.num 3) (.list [.num 3]) (.list [.num 3])
    (.list [.num 3]) "m" rfl

/-- C4: `check_server_status` with default thresholds (warning
`"reload-required"`, critical `""`, ok `"running"`).  `"running"` is OK with
exit 0 and `"stopped"` exits 2 with a CRITICAL line, as the claim states; but
`"restart-required"` is not WARNING/1: it is not a substring of the default
warning string `"reload-required"`, so it falls to the unexpected-value
branch, whose `%d` formatting of a string raises `TypeError`, reported as a
general CRITICAL with exit code 2.  The repository's own test
`test_check_status_warning_on_restart` asserts WARNING/1 here, so the claim
matches the intent and the code diverges.  `"reload-required"` is the
server-state that actually yields WARNING/1. -/
theorem check_server_status_default_scenarios :
    check_server_status "" "" false "running" =
      .exited 0 ("OK - Server Status \x27running\x27") ∧
    check_server_status "" "" false "stopped" =
      .returned 2 ("CRITICAL - General JbossAS Error: %d format: a number is required, not str") ∧
    check_server_status "" "" false "restart-required" =
      .returned 2 ("CRITICAL - General JbossAS Error: %d format: a number is required, not str") ∧
    check_server_status "" "" false "reload-required" =
      .exited 1 ("WARNING - Server Status \x27reload-required\x27") := by
  refine ⟨rfl, rfl, rfl, rfl⟩

/-- C5: for positive max, the percentage computed by the heap-usage pipeline
(bytes → megabytes via division by 1,048,576 in `get_memory_usage`, then
`round((float(used * 100) / max), 2)`) equals `round(used*100/max, 2)`, both
over the raw byte readings and over the converted megabyte readings.  The
computation is a pure function of its two inputs, hence deterministic. -/
theorem heap_percent_eq_round2 (usedB maxB : ℚ) (h : 0 < maxB) :
    heap_percent usedB maxB = .ok (round2 (usedB * 100 / maxB)) ∧
    heap_percent usedB maxB =
      .ok (round2 (get_memory_usage usedB * 100 / get_memory_usage maxB)) := by
  have hm : maxB ≠ 0 := ne_of_gt h
  have hmm : get_memory_usage maxB ≠ 0 := by
    simp only [get_memory_usage]
    exact div_ne_zero hm (by norm_num)
  have key : heap_percent usedB maxB =
      .ok (round2 (get_memory_usage usedB * 100 / get_memory_usage maxB)) := by
    unfold heap_percent pyDivQ
    rw [if_neg hmm]
    rfl
  refine ⟨?_, key⟩
  rw [key]
  congr 2
  unfold get_memory_usage
  field_simp

/-- C5 (witness): the spec's heap scenario, used = 439,564,992 bytes and
max = 1,037,959,168 bytes. -/
theorem heap_percent_eq_round2_witness :
    heap_percent 439564992 1037959168 = .ok (round2 (439564992 * 100 / 1037959168)) :=
  (heap_percent_eq_round2 439564992 1037959168 (by norm_num)).1

/-- C6: with a max reading of 0, the heap and non-heap usage checks do not
handle the case explicitly: the percentage computation raises
`ZeroDivisionError`, which escapes to the blanket `except Exception` handler
and is reported as `CRITICAL - General JbossAS Error` with return code 2.
The spec names this an edge case the extractor must guard explicitly rather
than propagate as a fault, so the code diverges from the claimed intent
(shown here at used = 1,048,576 bytes, max = 0, default thresholds). -/
theorem check_heap_usage_zero_max_division_fault :
    check_heap_usage 1048576 0 0 0 false =
      .returned 2 ("CRITICAL - General JbossAS Error: float division by zero") ∧
    check_non_heap_usage 1048576 0 0 0 false =
      .returned 2 ("CRITICAL - General JbossAS Error: float division by zero") ∧
    heap_percent 1048576 0 = .error PyErr.zeroDiv := by
  have hp : heap_percent 1048576 0 = .error PyErr.zeroDiv := by
    simp [heap_percent, pyDivQ, get_memory_usage, Except.map]
  refine ⟨?_, ?_, hp⟩
  · simp [check_heap_usage, hp, exit_with_general_critical, PyErr.text]
  · simp [check_non_heap_usage, hp, exit_with_general_critical, PyErr.text]

/-- C7 (counterexample): an empty (but present) queue name is NOT rejected
before the network call: `check_queue_depth` only tests `queue_name is None`,
so `""` proceeds to the fetch with the queue-depth URL. -/
theorem check_queue_depth_empty_name_reaches_fetch :
    check_queue_depth_validate (some "") =
      .fetch "/subsystem/messaging/hornetq-server/default/jms-queue/" := by
  rfl

/-- C7 (amended): a thread statistic type outside the four-value set, a
datasource statistic type outside the twelve-value set, and a missing (None,
but not empty-string) queue or datasource name each fail via
`exit_with_general_critical` before any network call is made. -/
theorem validation_before_fetch (t ds_stat : Option String) (xa : Bool) (n : String) :
    (optMem t thread_stat_types = false →
      check_threading_validate t =
        .earlyError ("The thread statistics value type of \x27" ++ optStr t ++
          "\x27 is not valid")) ∧
    (optMem ds_stat ds_stat_types = false →
      get_datasource_stats_validate xa (some n) ds_stat =
        .earlyError ("The datasource statistics type of \x27" ++ optStr ds_stat ++
          "\x27 is not valid")) ∧
    (get_datasource_stats_validate xa Option.none ds_stat =
      .earlyError "The ds_name name \x27None\x27 is not valid") ∧
    (check_queue_depth_validate Option.none =
      .earlyError "The queue name \x27None\x27 is not valid") := by
  refine ⟨fun h => ?_, fun h => ?_, rfl, rfl⟩
  · simp [check_threading_validate, h]
  · simp [get_datasource_stats_validate, h]

/-- C7 (witness): the amended theorem at the invalid statistic type
`"bogus"` for both the threading and the datasource action. -/
theorem validation_before_fetch_witness :
    check_threading_validate (some "bogus") =
      .earlyError ("The thread statistics value type of \x27" ++ optStr (some "bogus") ++
        "\x27 is not valid") ∧
    get_datasource_stats_validate false (some "ExampleDS") (some "bogus") =
      .earlyError ("The datasource statistics type of \x27" ++ optStr (some "bogus") ++
        "\x27 is not valid") :=
  ⟨(validation_before_fetch (some "bogus") (some "bogus") false "ExampleDS").1 (by decide),
   (validation_before_fetch (some "bogus") (some "bogus") false "ExampleDS").2.1 (by decide)⟩

/-- C8: for both fetch helpers, a parsed response whose top-level `outcome`
field equals `"failed"` is fatal: the helper prints a CRITICAL line carrying
the full payload and exits immediately with code 2 (before returning any data
to the calling check function). -/
theorem outcome_failed_fatal (d : PyDict)
    (h : dictLookup d "outcome" = some (.str "failed")) :
    get_digest_auth_json d = .fatal 2 ("CRITICAL - Unexpected value : " ++ dictRepr d) ∧
    post_digest_auth_json d = .fatal 2 ("CRITICAL - Unexpected value : " ++ dictRepr d) := by
  constructor <;> simp [get_digest_auth_json, post_digest_auth_json, h, pyEq]

/-- C8 (witness): a concrete rejected payload. -/
theorem outcome_failed_fatal_witness :
    get_digest_auth_json [("outcome", PyVal.str "failed"), ("failure-description", PyVal.str "boom")] =
      .fatal 2 ("CRITICAL - Unexpected value : " ++
        dictRepr [("outcome", PyVal.str "failed"), ("failure-description", PyVal.str "boom")]) ∧
    post_digest_auth_json [("outcome", PyVal.str "failed"), ("failure-description", PyVal.str "boom")] =
      .fatal 2 ("CRITICAL - Unexpected value : " ++
        dictRepr [("outcome", PyVal.str "failed"), ("failure-description", PyVal.str "boom")]) :=
  outcome_failed_fatal [("outcome", PyVal.str "failed"), ("failure-description", PyVal.str "boom")] rfl

/-- C9 (counterexample): the performance-data block does not have the claimed
form `label=value;warning;critical;min;max`: for a representative metric it
is `" |queue_depth=42;100;200 "`, with only two semicolons (the claimed form
has four) — no min and max fields are ever emitted. -/
theorem performance_data_lacks_min_max :
    performance_data true [(.str "42", "queue_depth", .num 100, .num 200)] =
      " |queue_depth=42;100;200 " ∧
    (" |queue_depth=42;100;200 ").toList.count (Char.ofNat 59) = 2 := by
  refine ⟨rfl, by decide⟩

/-- C9 (amended): every line reported by `check_levels` has the form
`"{STATUS} - {message}"` with STATUS one of OK, WARNING, CRITICAL; and when
performance-data output is enabled the appended block for a metric is
`" |label=value"`, followed by `";warning;critical"` exactly when either
threshold is truthy (a falsy one being replaced by 0) and a trailing space —
never min/max fields.  When disabled, nothing is appended. -/
theorem status_line_and_perf_block_shape (param w c okv : PyVal) (msg : String)
    (pv : PyVal) (pname : String) (pw pc : PyVal) :
    lineShape (check_levels param w c msg okv) ∧
    performance_data true [(pv, pname, pw, pc)] =
      " |" ++ pname ++ "=" ++ pyStrOf pv ++
        (if truthy pw || truthy pc then
          ";" ++ pyStrOf (pyOr pw (.num 0)) ++ ";" ++ pyStrOf (pyOr pc (.num 0))
        else "") ++ " " ∧
    performance_data false [(pv, pname, pw, pc)] = "" := by
  refine ⟨?_, ?_, rfl⟩
  · unfold check_levels
    split
    · rcases pyGE param c with e | b
      · exact trivial
      · cases b
        · rcases pyGE param w with e | b2
          · exact trivial
          · cases b2
            · exact ⟨"OK", msg, by simp, rfl⟩
            · exact ⟨"WARNING", msg, by simp, rfl⟩
        · exact ⟨"CRITICAL", msg, by simp, rfl⟩
    · rcases pyIn param c with e | b
      · exact trivial
      · cases b
        · rcases pyIn param w with e | b2
          · exact trivial
          · cases b2
            · rcases pyIn param okv with e | b3
              · exact trivial
              · cases b3
                · rcases hf : formatD param with e | s
                  · exact trivial
                  · refine ⟨"CRITICAL", "Unexpected value : " ++ s ++ "; " ++ msg, by simp, ?_⟩
                    simp only [String.append_assoc]
                    conv_rhs => rw [← String.append_assoc]
                    rfl
                · exact ⟨"OK", msg, by simp, rfl⟩
            · exact ⟨"WARNING", msg, by simp, rfl⟩
        · exact ⟨"CRITICAL", msg, by simp, rfl⟩
  · simp [performance_data, perf_entry, String.append_assoc]

/-- C10 (counterexample): classification is by substring containment, but the
claim's universal statements ignore precedence: `"u"` is a substring of the
ok string `"running"` yet is classified WARNING (exit 1), because it is also
a substring of the default warning string `"reload-required"`, which is
tested first. -/
theorem server_status_substring_of_running_not_ok :
    strIn "u" "running" = true ∧
    strIn "u" "reload-required" = true ∧
    check_server_status "" "" false "u" =
      .exited 1 ("WARNING - Server Status \x27u\x27") := by
  refine ⟨rfl, rfl, rfl⟩

/-- C10 (amended): for the server_status action the thresholds are plain
strings and `check_levels` classifies by Python substring containment, not
exact equality, in precedence order critical, warning, ok: with the default
thresholds (critical `""`, warning `"reload-required"`, ok `"running"`),
every server-state value that is not a substring of the critical string and
is a substring of the warning string is WARNING, and every value that is a
substring of neither of those but is a substring of `"running"` is OK. -/
theorem server_status_substring_classification (res : String) :
    (strIn res "" = false → strIn res "reload-required" = true →
      check_server_status "" "" false res =
        .exited 1 ("WARNING - Server Status \x27" ++ res ++ "\x27")) ∧
    (strIn res "" = false → strIn res "reload-required" = false →
      strIn res "running" = true →
      check_server_status "" "" false res =
        .exited 0 ("OK - Server Status \x27" ++ res ++ "\x27")) := by
  constructor
  · intro h1 h2
    simp [check_server_status, pyOrStr, check_levels, numeric_type, pyIn,
      performance_data, h1, h2, catchGeneralCritical, String.append_assoc]
    rw [← String.append_assoc]
    rfl
  · intro h1 h2 h3
    simp [check_server_status, pyOrStr, check_levels, numeric_type, pyIn,
      performance_data, h1, h2, h3, catchGeneralCritical, String.append_assoc]
    rw [← String.append_assoc]
    rfl

/-- C10 (witness): the substring (in fact equal) state `"reload-required"`
is WARNING, and the strict substring `"run"` of `"running"` is OK. -/
theorem server_status_substring_classification_witness :
    check_server_status "" "" false "reload-required" =
      .exited 1 ("WARNING - Server Status \x27" ++ "reload-required" ++ "\x27") ∧
    check_server_status "" "" false "run" =
      .exited 0 ("OK - Server Status \x27" ++ "run" ++ "\x27") :=
  ⟨(server_status_substring_classification "reload-required").1 rfl rfl,
   (server_status_substring_classification "run").2 rfl rfl rfl⟩
